import Mathlib

/-!
# Verification of the zk-shell command dispatcher (src/shell.rs)

A shallow embedding of the interactive ZooKeeper shell found in
`src/shell.rs` and `src/main.rs`.  Printing is modelled as a list of
output lines (one element per `println!`), the remote client is
modelled as an oracle (`ZkEnv`) supplying the result of each remote
call, and every command handler additionally records the trace of the
remote calls it issued (`ZkCall`); a `panicked := true` result marks a
Rust panic, which terminates the shell process.
-/

namespace ZkShell

/-- The service-level error codes of the `zookeeper` crate's `ZkError`
enum, as matched on by `report_error` in src/shell.rs; only `NoNode`
and `NotEmpty` are given dedicated messages, every other variant falls
through to the wildcard arm. -/
inductive ZkError where
  | ApiError
  | AuthFailed
  | BadArguments
  | BadVersion
  | ConnectionLoss
  | DataInconsistency
  | InvalidAcl
  | InvalidCallback
  | MarshallingError
  | NoAuth
  | NoChildrenForEphemerals
  | NoNode
  | NodeExists
  | NotEmpty
  | NotReadOnly
  | OperationTimeout
  | RuntimeInconsistency
  | SessionExpired
  | SessionMoved
  | SystemError
  | Unimplemented
  deriving DecidableEq

/-- The Rust `{:?}` (derived Debug) rendering of a `ZkError`: the bare
variant name. -/
def zkErrorDebug : ZkError → String
  | .ApiError => "ApiError"
  | .AuthFailed => "AuthFailed"
  | .BadArguments => "BadArguments"
  | .BadVersion => "BadVersion"
  | .ConnectionLoss => "ConnectionLoss"
  | .DataInconsistency => "DataInconsistency"
  | .InvalidAcl => "InvalidAcl"
  | .InvalidCallback => "InvalidCallback"
  | .MarshallingError => "MarshallingError"
  | .NoAuth => "NoAuth"
  | .NoChildrenForEphemerals => "NoChildrenForEphemerals"
  | .NoNode => "NoNode"
  | .NodeExists => "NodeExists"
  | .NotEmpty => "NotEmpty"
  | .NotReadOnly => "NotReadOnly"
  | .OperationTimeout => "OperationTimeout"
  | .RuntimeInconsistency => "RuntimeInconsistency"
  | .SessionExpired => "SessionExpired"
  | .SessionMoved => "SessionMoved"
  | .SystemError => "SystemError"
  | .Unimplemented => "Unimplemented"

/-- The `zookeeper` crate's `CreateMode` variants used by `Shell::create`. -/
inductive CreateMode where
  | Persistent
  | Ephemeral
  | PersistentSequential
  | EphemeralSequential
  deriving DecidableEq

/-- One entry of a ZooKeeper ACL (`zookeeper::Acl`). -/
structure Acl where
  perms : Nat
  scheme : String
  id : String
  deriving DecidableEq

/-- `zookeeper::acls::OPEN_ACL_UNSAFE`: full permissions (0x1f) for
`world:anyone`. -/
def OPEN_ACL_UNSAFE : List Acl := [{ perms := 31, scheme := "world", id := "anyone" }]

/-- Node stat metadata returned by the service (`zookeeper::Stat`). -/
structure Stat where
  czxid : Int
  mzxid : Int
  ctime : Int
  mtime : Int
  version : Int
  cversion : Int
  aversion : Int
  ephemeral_owner : Int
  data_length : Int
  num_children : Int
  pzxid : Int
  deriving DecidableEq

/-- Rust `{:?}` rendering of a `Stat` (derived Debug format). -/
def statDebug (st : Stat) : String :=
  "Stat \x7b czxid: " ++ toString st.czxid ++
  ", mzxid: " ++ toString st.mzxid ++
  ", ctime: " ++ toString st.ctime ++
  ", mtime: " ++ toString st.mtime ++
  ", version: " ++ toString st.version ++
  ", cversion: " ++ toString st.cversion ++
  ", aversion: " ++ toString st.aversion ++
  ", ephemeral_owner: " ++ toString st.ephemeral_owner ++
  ", data_length: " ++ toString st.data_length ++
  ", num_children: " ++ toString st.num_children ++
  ", pzxid: " ++ toString st.pzxid ++ " \x7d"

/-- An opaque live session handle (`zookeeper::ZooKeeper`), identified
by a session id so call traces can name the session being closed. -/
structure ZooKeeper where
  sid : Nat
  deriving DecidableEq

/-- The shell state struct (`struct Shell` in src/shell.rs). -/
structure Shell where
  hosts : String
  zk : Option ZooKeeper
  session_timeout : Nat
  default_acl : List Acl
  deriving DecidableEq

/-- `Shell::new`: starts disconnected, with a 5 second session timeout
and the open ACL. -/
def Shell.new (hosts : String) : Shell :=
  { hosts := hosts
    zk := none
    session_timeout := 5
    default_acl := OPEN_ACL_UNSAFE }

/-- One remote call to the ZooKeeper client, as issued by a command
handler (the collaborator interface). -/
inductive ZkCall where
  | get_data (path : String) (watch : Bool)
  | set_data (path : String) (data : List Nat) (version : Int)
  | get_children (path : String) (watch : Bool)
  | create (path : String) (data : List Nat) (acl : List Acl) (mode : CreateMode)
  | delete (path : String) (version : Int)
  | node_exists (path : String) (watch : Bool)
  | close (sid : Nat)
  | connect (hosts : String) (timeoutSecs : Nat)
  deriving DecidableEq

/-- The environment oracle: the response each remote call would get
from the external ZooKeeper client collaborator. -/
structure ZkEnv where
  get_data : String → Bool → Except ZkError (List Nat × Stat)
  set_data : String → List Nat → Int → Except ZkError Stat
  get_children : String → Bool → Except ZkError (List String)
  create : String → List Nat → List Acl → CreateMode → Except ZkError String
  delete : String → Int → Except ZkError Unit
  node_exists : String → Bool → Except ZkError Stat
  close : Nat → Except ZkError Unit
  connect : String → Nat → Except ZkError ZooKeeper

/-- The observable result of running one command: the shell state
afterwards, the lines printed, the remote calls issued (in order) and
whether the handler panicked (a panic aborts the whole process). -/
structure CmdResult where
  state : Shell
  output : List String
  calls : List ZkCall
  panicked : Bool
  deriving DecidableEq

/-- The failure test of the `check_args!` macro: the length is cast to
a signed integer and compared against the inclusive window; `true`
means the arity check fails. -/
def check_args (args : List String) (mn mx : Int) : Bool :=
  let len : Int := args.length
  len < mn || len > mx

/-- The failure arm of `check_args!`: print the arity message and
return from the handler without touching the remote service. -/
def check_args_fail (sh : Shell) (params : String) : CmdResult :=
  { state := sh
    output := ["Wrong number of arguments, expected parameters: " ++ params]
    calls := []
    panicked := false }

/-- The `None` arm of the `fetch_zk!` macro: print `Not connected.`
and return from the handler without touching the remote service. -/
def fetch_zk_fail (sh : Shell) : CmdResult :=
  { state := sh, output := ["Not connected."], calls := [], panicked := false }

/-- Rust's `str::to_lowercase`, restricted to the ASCII simple case
mapping (the only case mapping exercised by the shell's comparisons
against the ASCII literal `"true"`). -/
def rustToLowercase (s : String) : String :=
  String.mk (s.data.map Char.toLower)

/-- Rust's `str::parse::<i32>`: an optional single `+`/`-` sign
followed by one or more ASCII digits, with the resulting value
required to fit in a signed 32-bit integer; anything else fails. -/
def parseI32 (s : String) : Option Int :=
  let signDigits : Int × List Char :=
    match s.data with
    | '+' :: rest => (1, rest)
    | '-' :: rest => (-1, rest)
    | rest => (1, rest)
  let sign := signDigits.1
  let digits := signDigits.2
  if digits.isEmpty then none
  else if digits.all Char.isDigit then
    let n : Nat := digits.foldl (fun acc c => acc * 10 + (c.toNat - 48)) 0
    let v : Int := sign * (n : Int)
    if -(2 ^ 31) ≤ v ∧ v ≤ 2 ^ 31 - 1 then some v else none
  else none

/-- Strict UTF-8 decoding of a byte sequence into a list of unicode
scalar values' characters, as `str::from_utf8` validates it: rejects
stray continuation bytes, overlong encodings, surrogates and values
above U+10FFFF. -/
def utf8Decode : List Nat → Option (List Char)
  | [] => some []
  | b :: rest =>
    if b < 0x80 then
      match utf8Decode rest with
      | some cs => some (Char.ofNat b :: cs)
      | none => none
    else if b < 0xC2 then none
    else if b ≤ 0xDF then
      match rest with
      | c1 :: rest2 =>
        if 0x80 ≤ c1 ∧ c1 ≤ 0xBF then
          match utf8Decode rest2 with
          | some cs => some (Char.ofNat ((b - 0xC0) * 0x40 + (c1 - 0x80)) :: cs)
          | none => none
        else none
      | [] => none
    else if b ≤ 0xEF then
      match rest with
      | c1 :: c2 :: rest2 =>
        let lo1 := if b = 0xE0 then 0xA0 else 0x80
        let hi1 := if b = 0xED then 0x9F else 0xBF
        if lo1 ≤ c1 ∧ c1 ≤ hi1 ∧ 0x80 ≤ c2 ∧ c2 ≤ 0xBF then
          match utf8Decode rest2 with
          | some cs =>
            some (Char.ofNat ((b - 0xE0) * 0x1000 + (c1 - 0x80) * 0x40 + (c2 - 0x80)) :: cs)
          | none => none
        else none
      | _ => none
    else if b ≤ 0xF4 then
      match rest with
      | c1 :: c2 :: c3 :: rest2 =>
        let lo1 := if b = 0xF0 then 0x90 else 0x80
        let hi1 := if b = 0xF4 then 0x8F else 0xBF
        if lo1 ≤ c1 ∧ c1 ≤ hi1 ∧ 0x80 ≤ c2 ∧ c2 ≤ 0xBF ∧ 0x80 ≤ c3 ∧ c3 ≤ 0xBF then
          match utf8Decode rest2 with
          | some cs =>
            some (Char.ofNat
              ((b - 0xF0) * 0x40000 + (c1 - 0x80) * 0x1000 + (c2 - 0x80) * 0x40 + (c3 - 0x80)) :: cs)
          | none => none
        else none
      | _ => none
    else none

/-- UTF-8 encoding of one character (what `str::as_bytes` exposes for
it). -/
def utf8EncodeChar (c : Char) : List Nat :=
  let n := c.toNat
  if n < 0x80 then [n]
  else if n < 0x800 then [0xC0 + n / 0x40, 0x80 + n % 0x40]
  else if n < 0x10000 then
    [0xE0 + n / 0x1000, 0x80 + (n / 0x40) % 0x40, 0x80 + n % 0x40]
  else
    [0xF0 + n / 0x40000, 0x80 + (n / 0x1000) % 0x40, 0x80 + (n / 0x40) % 0x40, 0x80 + n % 0x40]

/-- Rust's `str::as_bytes().to_vec()`: the UTF-8 bytes of a string. -/
def strBytes (s : String) : List Nat :=
  s.data.foldr (fun c acc => utf8EncodeChar c ++ acc) []

/-- `report_error` in src/shell.rs: map a service error code and the
operation's path to the single diagnostic line printed. -/
def report_error (error : ZkError) (path : String) : String :=
  match error with
  | .NoNode => "Path " ++ path ++ " does not exist."
  | .NotEmpty => "Path " ++ path ++ " is not empty."
  | unknown => "Unknown error: " ++ zkErrorDebug unknown

/-- `Shell::get`: arity [1,2]; optional watch flag parsed by lowercase
comparison with `"true"`; requires a session; fetches the node data
and prints it decoded as UTF-8, where the source's
`str::from_utf8(..).unwrap()` panics on a decode failure. -/
def Shell.get (sh : Shell) (env : ZkEnv) (args : List String) : CmdResult :=
  if check_args args 1 2 then check_args_fail sh "<path> [watch]"
  else
    let argc := args.length
    let watch :=
      match argc with
      | 1 => false
      | _ => rustToLowercase (args.getD 1 "") == "true"
    match sh.zk with
    | none => fetch_zk_fail sh
    | some _ =>
      let path := args.getD 0 ""
      match env.get_data path watch with
      | .ok bytesStat =>
        match utf8Decode bytesStat.1 with
        | some cs =>
          { state := sh, output := [String.mk cs]
            calls := [ZkCall.get_data path watch], panicked := false }
        | none =>
          { state := sh, output := []
            calls := [ZkCall.get_data path watch], panicked := true }
      | .error err =>
        { state := sh, output := [report_error err path]
          calls := [ZkCall.get_data path watch], panicked := false }

/-- `Shell::set`: arity [2,3]; optional version parsed as i32 with
silent `-1` fallback; requires a session; writes the data bytes. -/
def Shell.set (sh : Shell) (env : ZkEnv) (args : List String) : CmdResult :=
  if check_args args 2 3 then check_args_fail sh "<path> <data> [version]"
  else
    let argc := args.length
    let version : Int :=
      match argc with
      | 3 =>
        match parseI32 (args.getD 2 "") with
        | some v => v
        | none => -1
      | _ => -1
    match sh.zk with
    | none => fetch_zk_fail sh
    | some _ =>
      let path := args.getD 0 ""
      let data := strBytes (args.getD 1 "")
      match env.set_data path data version with
      | .ok _ =>
        { state := sh, output := []
          calls := [ZkCall.set_data path data version], panicked := false }
      | .error err =>
        { state := sh, output := [report_error err path]
          calls := [ZkCall.set_data path data version], panicked := false }

/-- `Shell::ls`: arity [1,2]; optional watch flag; requires a session;
prints the children space-joined on one line, in service order. -/
def Shell.ls (sh : Shell) (env : ZkEnv) (args : List String) : CmdResult :=
  if check_args args 1 2 then check_args_fail sh "<path> [watch]"
  else
    let argc := args.length
    let watch :=
      match argc with
      | 1 => false
      | _ => rustToLowercase (args.getD 1 "") == "true"
    match sh.zk with
    | none => fetch_zk_fail sh
    | some _ =>
      let path := args.getD 0 ""
      match env.get_children path watch with
      | .ok children =>
        { state := sh, output := [String.intercalate " " children]
          calls := [ZkCall.get_children path watch], panicked := false }
      | .error err =>
        { state := sh, output := [report_error err path]
          calls := [ZkCall.get_children path watch], panicked := false }

/-- `Shell::create`: arity [2,4]; mode starts `Persistent`, a third
argument equal (case-insensitively) to `true` makes it `Ephemeral`,
and a fourth such argument upgrades whichever mode is selected to its
sequential variant; requires a session; creates the node with the
shell's default ACL. -/
def Shell.create (sh : Shell) (env : ZkEnv) (args : List String) : CmdResult :=
  let mode0 := CreateMode.Persistent
  if check_args args 2 4 then check_args_fail sh "<path> <data> [ephemeral] [sequential]"
  else
    let argc := args.length
    let mode1 :=
      if 3 ≤ argc then
        if rustToLowercase (args.getD 2 "") == "true" then CreateMode.Ephemeral else mode0
      else mode0
    let mode :=
      if argc = 4 then
        if rustToLowercase (args.getD 3 "") == "true" then
          match mode1 with
          | CreateMode.Ephemeral => CreateMode.EphemeralSequential
          | _ => CreateMode.PersistentSequential
        else mode1
      else mode1
    match sh.zk with
    | none => fetch_zk_fail sh
    | some _ =>
      let path := args.getD 0 ""
      let data := strBytes (args.getD 1 "")
      match env.create path data sh.default_acl mode with
      | .ok _ =>
        { state := sh, output := []
          calls := [ZkCall.create path data sh.default_acl mode], panicked := false }
      | .error err =>
        { state := sh, output := [report_error err path]
          calls := [ZkCall.create path data sh.default_acl mode], panicked := false }

/-- `Shell::rm`: arity [1,2]; optional version parsed as i32 with
silent `-1` fallback; requires a session; deletes the node. -/
def Shell.rm (sh : Shell) (env : ZkEnv) (args : List String) : CmdResult :=
  if check_args args 1 2 then check_args_fail sh "<path> [version]"
  else
    let argc := args.length
    let version : Int :=
      match argc with
      | 2 =>
        match parseI32 (args.getD 1 "") with
        | some v => v
        | none => -1
      | _ => -1
    match sh.zk with
    | none => fetch_zk_fail sh
    | some _ =>
      let path := args.getD 0 ""
      match env.delete path version with
      | .ok _ =>
        { state := sh, output := []
          calls := [ZkCall.delete path version], panicked := false }
      | .error err =>
        { state := sh, output := [report_error err path]
          calls := [ZkCall.delete path version], panicked := false }

/-- `Shell::exists`: arity [1,2]; optional watch flag; requires a
session; prints the Debug rendering of the returned stat. -/
def Shell.node_exists (sh : Shell) (env : ZkEnv) (args : List String) : CmdResult :=
  if check_args args 1 2 then check_args_fail sh "<path> [watch]"
  else
    let argc := args.length
    let watch :=
      match argc with
      | 1 => false
      | _ => rustToLowercase (args.getD 1 "") == "true"
    match sh.zk with
    | none => fetch_zk_fail sh
    | some _ =>
      let path := args.getD 0 ""
      match env.node_exists path watch with
      | .ok st =>
        { state := sh, output := [statDebug st]
          calls := [ZkCall.node_exists path watch], panicked := false }
      | .error err =>
        { state := sh, output := [report_error err path]
          calls := [ZkCall.node_exists path watch], panicked := false }

/-- `Shell::connect_to`: print the connecting banner, attempt a new
session against `hosts` with the stored session timeout; store the
session on success, print the error's Debug rendering on failure. -/
def Shell.connect_to (sh : Shell) (env : ZkEnv) (hosts : String) : CmdResult :=
  let banner := "Connecting to " ++ hosts ++ "..."
  match env.connect hosts sh.session_timeout with
  | .ok zk =>
    { state := { sh with zk := some zk }, output := [banner]
      calls := [ZkCall.connect hosts sh.session_timeout], panicked := false }
  | .error e =>
    { state := sh, output := [banner, zkErrorDebug e]
      calls := [ZkCall.connect hosts sh.session_timeout], panicked := false }

/-- `Shell::connect`: arity [1,1]; if a session is live it is closed
first (its close result is dropped), the stored handle is cleared, and
then `connect_to` runs against the given hosts. -/
def Shell.connect (sh : Shell) (env : ZkEnv) (args : List String) : CmdResult :=
  if check_args args 1 1 then check_args_fail sh "<hosts>"
  else
    match sh.zk with
    | some zk =>
      let _ := env.close zk.sid
      let sh2 := { sh with zk := none }
      let r := Shell.connect_to sh2 env (args.getD 0 "")
      { state := r.state, output := r.output
        calls := ZkCall.close zk.sid :: r.calls, panicked := r.panicked }
    | none =>
      let sh2 := { sh with zk := none }
      Shell.connect_to sh2 env (args.getD 0 "")

/-- `Shell::disconnect`: `Not connected.` when no session is live;
otherwise close the session (dropping the close result) and clear the
stored handle unconditionally. -/
def Shell.disconnect (sh : Shell) (env : ZkEnv) : CmdResult :=
  match sh.zk with
  | none => fetch_zk_fail sh
  | some zk =>
    let _ := env.close zk.sid
    { state := { sh with zk := none }, output := []
      calls := [ZkCall.close zk.sid], panicked := false }

/-- One entry of the static help registry (`struct CmdHelp`). -/
structure CmdHelp where
  name : String
  desc : String
  synopsis : String
  options : String
  examples : String
  deriving DecidableEq

/-- `CmdHelp::name_desc`. -/
def CmdHelp.name_desc (c : CmdHelp) : String := c.name ++ " - " ++ c.desc

/-- `CmdHelp::synopsis_string`. -/
def CmdHelp.synopsis_string (c : CmdHelp) : String := c.name ++ " " ++ c.synopsis

/-- `ansi_term`'s `White.bold().paint(..)` rendering. -/
def paintBoldWhite (s : String) : String := "\x1b[1;37m" ++ s ++ "\x1b[0m"

/-- `CmdHelp::full`. -/
def CmdHelp.full (c : CmdHelp) : String :=
  paintBoldWhite "NAME" ++ "\n\t" ++ c.name_desc ++ "\n\n" ++
  paintBoldWhite "SYNOPSIS" ++ "\n\t" ++ c.synopsis_string ++ "\n\n" ++
  paintBoldWhite "OPTIONS" ++ "\n\t" ++ c.options ++ "\n\n" ++
  paintBoldWhite "EXAMPLES" ++ "\n\t" ++ c.examples ++ "\n"

/-- The static `HELP` registry (the `lazy_static!` map), as an
association list keyed by command name. -/
def HELP : List (String × CmdHelp) :=
  [ ("get", ⟨"get", "Gets the znode's value", "<path> [watch]", "", ""⟩)
  , ("set", ⟨"set", "Sets the znode's value", "<path> <data> [version]", "", ""⟩)
  , ("ls", ⟨"ls", "Lists a znode's children", "<path> [watch]", "", ""⟩)
  , ("create", ⟨"create", "Creates a znode with the given value",
      "<path> <data> [ephemeral] [sequential]", "", ""⟩)
  , ("rm", ⟨"rm", "Delete a znode", "<path> [version]", "", ""⟩)
  , ("exists", ⟨"exists", "Gets the znode's stat information", "<path> [watch]", "", ""⟩)
  , ("disconnect", ⟨"disconnect", "Disconnects from the server (closing the session)", "", "", ""⟩)
  , ("connect", ⟨"connect", "Connects to one of the given hosts, creating a session", "<hosts>", "", ""⟩)
  ]

/-- `HashMap::get` over the help registry. -/
def helpLookup (name : String) : Option CmdHelp :=
  (HELP.find? fun kv => kv.1 == name).map Prod.snd

/-- `help_all`: the registry's command names sorted, one line each. -/
def help_all_lines : List String :=
  let keys := (HELP.map Prod.fst).mergeSort (fun a b => a ≤ b)
  keys.foldr
    (fun cmd acc =>
      match helpLookup cmd with
      | some cmdh => (paintBoldWhite cmdh.name ++ " - " ++ cmdh.synopsis) :: acc
      | none => acc)
    []

/-- `help_full`: the full help of one command, or the unknown-command
diagnostic. -/
def help_full_lines (cmd : String) : List String :=
  match helpLookup cmd with
  | some cmdh => [cmdh.full]
  | none => ["Unknown command: " ++ cmd ++ "."]

/-- `Shell::help`: arity [0,1]; one argument renders that command's
full help, none renders the sorted summary; never touches the remote
service. -/
def Shell.help (sh : Shell) (args : List String) : CmdResult :=
  if check_args args 0 1 then check_args_fail sh "[cmd]"
  else
    let argc := args.length
    match argc with
    | 1 => { state := sh, output := help_full_lines (args.getD 0 ""), calls := [], panicked := false }
    | _ => { state := sh, output := help_all_lines, calls := [], panicked := false }

/-- The command dispatch `match` in `Shell::run`: route a command name
and its argument vector to the handler; an unrecognized name prints
the unknown-command diagnostic. -/
def dispatchCmd (sh : Shell) (env : ZkEnv) (cmd : String) (args : List String) : CmdResult :=
  match cmd with
  | "get" => Shell.get sh env args
  | "set" => Shell.set sh env args
  | "ls" => Shell.ls sh env args
  | "create" => Shell.create sh env args
  | "rm" => Shell.rm sh env args
  | "exists" => Shell.node_exists sh env args
  | "disconnect" => Shell.disconnect sh env
  | "connect" => Shell.connect sh env args
  | "help" => Shell.help sh args
  | "man" => Shell.help sh args
  | unknown =>
    { state := sh, output := ["Unknown command: " ++ unknown], calls := [], panicked := false }

/-- One iteration of the read loop on a line of input: trim, split on
whitespace; an empty token list is a silent no-op, otherwise the first
token is the command and the rest the arguments. -/
def dispatchLine (sh : Shell) (env : ZkEnv) (line : String) : CmdResult :=
  let pieces := (line.split Char.isWhitespace).filter (fun s => s ≠ "")
  match pieces with
  | [] => { state := sh, output := [], calls := [], panicked := false }
  | cmd :: args => dispatchCmd sh env cmd args

/-! ## Concrete collaborators and states used by witnesses -/

/-- A stat with all counters zero. -/
def stat0 : Stat := ⟨0, 0, 0, 0, 0, 0, 0, 0, 0, 0, 0⟩

/-- A shell holding a live session with id 1. -/
def shellConn : Shell := { Shell.new "" with zk := some ⟨1⟩ }

/-- A collaborator for which every remote call succeeds; `get` yields
the bytes of `hello`, `ls` yields children `x y`, `connect` yields the
session with id 2. -/
def okEnv : ZkEnv :=
  { get_data := fun _ _ => .ok ([0x68, 0x65, 0x6C, 0x6C, 0x6F], stat0)
    set_data := fun _ _ _ => .ok stat0
    get_children := fun _ _ => .ok ["x", "y"]
    create := fun p _ _ _ => .ok p
    delete := fun _ _ => .ok ()
    node_exists := fun _ _ => .ok stat0
    close := fun _ => .ok ()
    connect := fun _ _ => .ok ⟨2⟩ }

/-- A collaborator for which every remote call (including `close`)
fails with `ConnectionLoss`. -/
def errorEnv : ZkEnv :=
  { get_data := fun _ _ => .error .ConnectionLoss
    set_data := fun _ _ _ => .error .ConnectionLoss
    get_children := fun _ _ => .error .ConnectionLoss
    create := fun _ _ _ _ => .error .ConnectionLoss
    delete := fun _ _ => .error .ConnectionLoss
    node_exists := fun _ _ => .error .ConnectionLoss
    close := fun _ => .error .ConnectionLoss
    connect := fun _ _ => .error .ConnectionLoss }

/-- A collaborator whose `delete` reports that the node does not
exist. -/
def noNodeEnv : ZkEnv := { errorEnv with delete := fun _ _ => .error .NoNode }

/-- A collaborator whose `get_data` returns the single byte 0xFF,
which is not valid UTF-8. -/
def badUtf8Env : ZkEnv := { okEnv with get_data := fun _ _ => .ok ([0xFF], stat0) }

/-! ## Spec-side definitions used for refinement comparisons -/

/-- Modelled from the spec: the arity windows and parameter spec
strings of the commands whose handlers run `check_args!` (`disconnect`
is absent: its handler performs no arity check, see
`disconnect_skips_arity_check_cex`). -/
def aritySpec : String → Option (Int × Int × String)
  | "get" => some (1, 2, "<path> [watch]")
  | "set" => some (2, 3, "<path> <data> [version]")
  | "ls" => some (1, 2, "<path> [watch]")
  | "create" => some (2, 4, "<path> <data> [ephemeral] [sequential]")
  | "rm" => some (1, 2, "<path> [version]")
  | "exists" => some (1, 2, "<path> [watch]")
  | "connect" => some (1, 1, "<hosts>")
  | "help" => some (0, 1, "[cmd]")
  | "man" => some (0, 1, "[cmd]")
  | _ => none

/-- Modelled from the spec: a boolean flag is true exactly when the
argument equals `true` case-insensitively, rendered as folding both
strings to lowercase and comparing. -/
def specParseBool (s : String) : Bool :=
  s.data.map Char.toLower == "true".data.map Char.toLower

/-- Modelled from the spec: node-mode resolution — base mode
persistent, ephemeral flag switches the base to ephemeral, sequential
flag upgrades whichever base was selected to its sequential
variant. -/
def specResolveMode (ephemeral sequential : Bool) : CreateMode :=
  let base := if ephemeral then CreateMode.Ephemeral else CreateMode.Persistent
  if sequential then
    match base with
    | CreateMode.Ephemeral => CreateMode.EphemeralSequential
    | _ => CreateMode.PersistentSequential
  else base

/-- Modelled from the spec: a version argument parses as a signed
integer, silently defaulting to -1 on failure. -/
def specVersionOf (s : String) : Int :=
  match parseI32 s with
  | some v => v
  | none => -1

/-- Bridge: the code's boolean-flag test (`to_lowercase() == "true"`)
computes exactly the spec's case-insensitive comparison with
`true`. -/
lemma rustToLowercase_eq_true_iff (s : String) :
    (rustToLowercase s == "true") = specParseBool s := by
  have h : ("true" : String).data.map Char.toLower = ("true" : String).data := by decide
  rw [Bool.eq_iff_iff]
  unfold rustToLowercase specParseBool
  rw [h]
  constructor
  · intro hb
    have := (beq_iff_eq).mp hb
    exact beq_iff_eq.mpr (congrArg String.data this)
  · intro hb
    have := (beq_iff_eq).mp hb
    exact beq_iff_eq.mpr (congrArg String.mk this)

/-! ## Claim theorems -/

/-- C1: the claim says a non-UTF-8 payload on `get` surfaces as a
command-level failure with the shell process continuing; the code
instead calls `str::from_utf8(..).unwrap()`, which panics and
terminates the process. Evaluating `get /a` against a collaborator
returning the invalid byte 0xFF: the handler reaches the remote call
and then panics, producing no output line and no mapped error. -/
theorem get_panics_on_invalid_utf8 :
    Shell.get shellConn badUtf8Env ["/a"] =
      { state := shellConn, output := [], calls := [ZkCall.get_data "/a" false],
        panicked := true } := by
  decide

/-- C2 (counterexample): `disconnect` with one argument — outside the
claimed [0,0] window — against a connected shell prints no
arity-error line at all and still issues the remote close call,
refuting the claim that every recognized command (disconnect
included) rejects out-of-window argument lists before any remote
call. -/
theorem disconnect_skips_arity_check_cex :
    (dispatchCmd shellConn errorEnv "disconnect" ["x"]).output = [] ∧
      (dispatchCmd shellConn errorEnv "disconnect" ["x"]).calls = [ZkCall.close 1] := by
  decide

/-- C2 (amended): every recognized command except `disconnect` —
get, set, ls, create, rm, exists, connect, help, man — invoked with
an argument count outside its inclusive arity window prints
`Wrong number of arguments, expected parameters: <spec string>` and
aborts with no remote call and no state change; `disconnect`, by
contrast, performs no arity check: any argument list behaves exactly
like a bare `disconnect`. -/
theorem arity_window_enforced (sh : Shell) (env : ZkEnv) (cmd : String)
    (args : List String) (mn mx : Int) (params : String)
    (hspec : aritySpec cmd = some (mn, mx, params))
    (hbad : check_args args mn mx = true) :
    dispatchCmd sh env cmd args = check_args_fail sh params ∧
      ∀ xs : List String, dispatchCmd sh env "disconnect" xs = Shell.disconnect sh env := by
  refine ⟨?_, fun xs => rfl⟩
  unfold aritySpec at hspec
  split at hspec <;>
    (try exact Option.noConfusion hspec) <;>
    (simp only [Option.some.injEq, Prod.mk.injEq] at hspec
     obtain ⟨rfl, rfl, rfl⟩ := hspec
     simp [dispatchCmd, Shell.get, Shell.set, Shell.ls, Shell.create, Shell.rm,
       Shell.node_exists, Shell.connect, Shell.help, hbad])

/-- C2 (witness): `get` with no arguments is rejected with the arity
message, and `disconnect x` behaves like a bare `disconnect`. -/
theorem arity_window_enforced_witness :
    dispatchCmd (Shell.new "") errorEnv "get" [] = check_args_fail (Shell.new "") "<path> [watch]" ∧
      dispatchCmd (Shell.new "") errorEnv "disconnect" ["x"] =
        Shell.disconnect (Shell.new "") errorEnv := by
  have h := arity_window_enforced (Shell.new "") errorEnv "get" [] 1 2 "<path> [watch]"
    rfl (by decide)
  exact ⟨h.1, h.2 ["x"]⟩

/-- C3: every node operation (get, set, ls, create, rm, exists)
invoked with a valid argument count while no session is live prints
exactly `Not connected.` and issues no remote call, leaving the state
untouched. -/
theorem not_connected_guard (sh : Shell) (env : ZkEnv) (cmd : String)
    (args : List String) (mn mx : Int) (params : String)
    (hzk : sh.zk = none)
    (hcmd : cmd ∈ ["get", "set", "ls", "create", "rm", "exists"])
    (hspec : aritySpec cmd = some (mn, mx, params))
    (hok : check_args args mn mx = false) :
    dispatchCmd sh env cmd args = fetch_zk_fail sh := by
  fin_cases hcmd <;>
    (simp only [aritySpec, Option.some.injEq, Prod.mk.injEq] at hspec
     obtain ⟨rfl, rfl, rfl⟩ := hspec
     simp [dispatchCmd, Shell.get, Shell.set, Shell.ls, Shell.create, Shell.rm,
       Shell.node_exists, hok, hzk])

/-- C3 (witness): `get /a` on a fresh, disconnected shell prints
`Not connected.` with zero collaborator invocations. -/
theorem not_connected_guard_witness :
    dispatchCmd (Shell.new "") errorEnv "get" ["/a"] = fetch_zk_fail (Shell.new "") :=
  not_connected_guard (Shell.new "") errorEnv "get" ["/a"] 1 2 "<path> [watch]"
    rfl (by decide) rfl (by decide)

/-- C4: `connect hosts` with a live session closes the old session
before the new connect call (in that order, with the fixed stored
session timeout); a failing close changes nothing because the close
result is dropped — the outcome depends only on the collaborator's
connect behaviour; on connect success the stored session is replaced
by the new one, and on connect failure the state is left with no
session, the banner plus the error's Debug rendering are printed, and
exactly one connect call is made (no retry). -/
theorem connect_close_then_open (sh : Shell) (env : ZkEnv) (hosts : String)
    (zkOld : ZooKeeper) (hlive : sh.zk = some zkOld) :
    (Shell.connect sh env [hosts]).calls =
        [ZkCall.close zkOld.sid, ZkCall.connect hosts sh.session_timeout] ∧
      (∀ zkNew, env.connect hosts sh.session_timeout = Except.ok zkNew →
        (Shell.connect sh env [hosts]).state = { sh with zk := some zkNew }) ∧
      (∀ e, env.connect hosts sh.session_timeout = Except.error e →
        (Shell.connect sh env [hosts]).state = { sh with zk := none } ∧
          (Shell.connect sh env [hosts]).output =
            ["Connecting to " ++ hosts ++ "...", zkErrorDebug e]) ∧
      (∀ env2 : ZkEnv, env2.connect = env.connect →
        Shell.connect sh env2 [hosts] = Shell.connect sh env [hosts]) := by
  have hca : check_args [hosts] 1 1 = false := rfl
  refine ⟨?_, ?_, ?_, ?_⟩
  · simp only [Shell.connect, Shell.connect_to, hlive, hca]
    cases henv : env.connect hosts sh.session_timeout <;> simp [henv]
  · intro zkNew hok
    simp [Shell.connect, Shell.connect_to, hlive, hok, hca]
  · intro e herr
    simp [Shell.connect, Shell.connect_to, hlive, herr, hca]
  · intro env2 hagree
    simp [Shell.connect, Shell.connect_to, hlive, hagree, hca]

/-- C4 (witness): reconnecting the shell holding session 1 against a
collaborator whose connect yields session 2 closes session 1 first,
then connects with the fixed 5 second timeout, and stores session
2; and the result is insensitive to the close outcome (an
all-failing close behaves the same as a succeeding one on the
connect-relevant parts). -/
theorem connect_close_then_open_witness :
    (Shell.connect shellConn okEnv ["h2"]).calls = [ZkCall.close 1, ZkCall.connect "h2" 5] ∧
      (Shell.connect shellConn okEnv ["h2"]).state = { shellConn with zk := some ⟨2⟩ } ∧
      Shell.connect shellConn { errorEnv with connect := okEnv.connect } ["h2"] =
        Shell.connect shellConn okEnv ["h2"] := by
  have h := connect_close_then_open shellConn okEnv "h2" ⟨1⟩ rfl
  exact ⟨h.1, h.2.1 ⟨2⟩ rfl, h.2.2.2 { errorEnv with connect := okEnv.connect } rfl⟩

/-- C5: `disconnect` with no live session prints `Not connected.`,
makes no close call and leaves the state unchanged; with a live
session it issues the close call and clears the stored handle
unconditionally — the close result is dropped, so this holds even for
a collaborator whose close reports an error. -/
theorem disconnect_clears_session (sh : Shell) (env : ZkEnv) :
    (sh.zk = none → Shell.disconnect sh env = fetch_zk_fail sh) ∧
      (∀ zk : ZooKeeper, sh.zk = some zk →
        Shell.disconnect sh env =
          { state := { sh with zk := none }, output := [],
            calls := [ZkCall.close zk.sid], panicked := false }) := by
  constructor
  · intro h; simp [Shell.disconnect, h]
  · intro zk h; simp [Shell.disconnect, h]

/-- C5 (witness): a disconnected shell gets `Not connected.` with no
calls; a connected shell facing a collaborator whose close fails
still ends with its stored session cleared. -/
theorem disconnect_clears_session_witness :
    Shell.disconnect (Shell.new "") errorEnv = fetch_zk_fail (Shell.new "") ∧
      Shell.disconnect shellConn errorEnv =
        { state := { shellConn with zk := none }, output := [],
          calls := [ZkCall.close 1], panicked := false } :=
  ⟨(disconnect_clears_session (Shell.new "") errorEnv).1 rfl,
    (disconnect_clears_session shellConn errorEnv).2 ⟨1⟩ rfl⟩

/-- Helper: the create call recorded against a live session carries
the spec's resolved mode, for the 4-, 3- and 2-argument forms. -/
lemma create_calls_spec (sh : Shell) (env : ZkEnv) (zk : ZooKeeper)
    (path data ef sf : String) (hzk : sh.zk = some zk) :
    (Shell.create sh env [path, data, ef, sf]).calls =
        [ZkCall.create path (strBytes data) sh.default_acl
          (specResolveMode (specParseBool ef) (specParseBool sf))] ∧
      (Shell.create sh env [path, data, ef]).calls =
        [ZkCall.create path (strBytes data) sh.default_acl
          (specResolveMode (specParseBool ef) false)] ∧
      (Shell.create sh env [path, data]).calls =
        [ZkCall.create path (strBytes data) sh.default_acl CreateMode.Persistent] := by
  have hca4 : check_args [path, data, ef, sf] 2 4 = false := rfl
  have hca3 : check_args [path, data, ef] 2 4 = false := rfl
  have hca2 : check_args [path, data] 2 4 = false := rfl
  refine ⟨?_, ?_, ?_⟩
  · cases hef : specParseBool ef <;> cases hsf : specParseBool sf <;>
      (simp [Shell.create, hzk, rustToLowercase_eq_true_iff, specResolveMode, hef, hsf, hca4]
       split <;> rfl)
  · cases hef : specParseBool ef <;>
      (simp [Shell.create, hzk, rustToLowercase_eq_true_iff, specResolveMode, hef, hca3]
       split <;> rfl)
  · simp [Shell.create, hzk, specResolveMode, hca2]
    split <;> rfl

/-- C6: the node mode `create` passes to the collaborator is exactly
the spec's resolution rule applied to the two parsed flags — base
persistent, ephemeral flag true switches to ephemeral, sequential
flag true upgrades the selected base to its sequential variant; with
three arguments only the ephemeral flag applies, and with two
arguments the mode is persistent. -/
theorem create_mode_resolution (sh : Shell) (env : ZkEnv) (zk : ZooKeeper)
    (path data ef sf : String) (hzk : sh.zk = some zk) :
    (Shell.create sh env [path, data, ef, sf]).calls =
        [ZkCall.create path (strBytes data) sh.default_acl
          (specResolveMode (specParseBool ef) (specParseBool sf))] ∧
      (Shell.create sh env [path, data, ef]).calls =
        [ZkCall.create path (strBytes data) sh.default_acl
          (specResolveMode (specParseBool ef) false)] ∧
      (Shell.create sh env [path, data]).calls =
        [ZkCall.create path (strBytes data) sh.default_acl CreateMode.Persistent] :=
  create_calls_spec sh env zk path data ef sf hzk

/-- C6 (witness): flags `true true` yield ephemeral-sequential,
`false true` persistent-sequential, and two arguments persistent, as
recorded in the create call issued against a live session. -/
theorem create_mode_resolution_witness :
    (Shell.create shellConn okEnv ["/a", "x", "true", "true"]).calls =
        [ZkCall.create "/a" (strBytes "x") shellConn.default_acl
          CreateMode.EphemeralSequential] ∧
      (Shell.create shellConn okEnv ["/a", "x", "false", "true"]).calls =
        [ZkCall.create "/a" (strBytes "x") shellConn.default_acl
          CreateMode.PersistentSequential] ∧
      (Shell.create shellConn okEnv ["/a", "x"]).calls =
        [ZkCall.create "/a" (strBytes "x") shellConn.default_acl CreateMode.Persistent] := by
  have h1 := (create_mode_resolution shellConn okEnv ⟨1⟩ "/a" "x" "true" "true" rfl).1
  have h2 := (create_mode_resolution shellConn okEnv ⟨1⟩ "/a" "x" "false" "true" rfl).1
  have h3 := (create_mode_resolution shellConn okEnv ⟨1⟩ "/a" "x" "" "" rfl).2.2
  exact ⟨by simpa using h1, by simpa using h2, h3⟩

/-- C7: the version a `set` or `rm` passes to the collaborator is the
spec's rule — the string parsed as a signed 32-bit integer when that
succeeds, and -1 (with no error raised: the handler proceeds to the
remote call) when parsing fails or the argument is omitted. -/
theorem version_parse_default (sh : Shell) (env : ZkEnv) (zk : ZooKeeper)
    (path data vstr : String) (hzk : sh.zk = some zk) :
    (Shell.set sh env [path, data, vstr]).calls =
        [ZkCall.set_data path (strBytes data) (specVersionOf vstr)] ∧
      (Shell.set sh env [path, data]).calls =
        [ZkCall.set_data path (strBytes data) (-1)] ∧
      (Shell.rm sh env [path, vstr]).calls = [ZkCall.delete path (specVersionOf vstr)] ∧
      (Shell.rm sh env [path]).calls = [ZkCall.delete path (-1)] ∧
      (∀ v : Int, parseI32 vstr = some v → specVersionOf vstr = v) ∧
      (parseI32 vstr = none → specVersionOf vstr = -1) := by
  have hset3 : check_args [path, data, vstr] 2 3 = false := rfl
  have hset2 : check_args [path, data] 2 3 = false := rfl
  have hrm2 : check_args [path, vstr] 1 2 = false := rfl
  have hrm1 : check_args [path] 1 2 = false := rfl
  refine ⟨?_, ?_, ?_, ?_, ?_, ?_⟩
  · cases hp : parseI32 vstr <;>
      (simp [Shell.set, hzk, specVersionOf, hp, hset3]
       split <;> rfl)
  · simp [Shell.set, hzk, hset2]
    split <;> rfl
  · cases hp : parseI32 vstr <;>
      (simp [Shell.rm, hzk, specVersionOf, hp, hrm2]
       split <;> rfl)
  · simp [Shell.rm, hzk, hrm1]
    split <;> rfl
  · intro v hv; simp [specVersionOf, hv]
  · intro hn; simp [specVersionOf, hn]

/-- C7 (witness): version `"3"` is passed through as 3, while the
malformed `"abc"` silently becomes -1, on both `set` and `rm`
against a live session. -/
theorem version_parse_default_witness :
    (Shell.set shellConn okEnv ["/a", "x", "3"]).calls =
        [ZkCall.set_data "/a" (strBytes "x") 3] ∧
      (Shell.rm shellConn okEnv ["/a", "abc"]).calls = [ZkCall.delete "/a" (-1)] ∧
      (Shell.rm shellConn okEnv ["/a"]).calls = [ZkCall.delete "/a" (-1)] := by
  have h1 := (version_parse_default shellConn okEnv ⟨1⟩ "/a" "x" "3" rfl).1
  have h2 := (version_parse_default shellConn okEnv ⟨1⟩ "/a" "x" "abc" rfl).2.2.1
  have h3 := (version_parse_default shellConn okEnv ⟨1⟩ "/a" "x" "" rfl).2.2.2.1
  exact ⟨by simpa using h1, by simpa using h2, h3⟩

/-- C8: every boolean flag the shell parses — the watch flag of get,
ls and exists and the two create flags — is true exactly when the
argument equals `true` case-insensitively (both strings folded to
lowercase and compared); any other string yields false and the
handler proceeds normally, raising no error. -/
theorem bool_flag_case_insensitive (sh : Shell) (env : ZkEnv) (zk : ZooKeeper)
    (path data w w2 : String) (hzk : sh.zk = some zk) :
    (Shell.get sh env [path, w]).calls = [ZkCall.get_data path (specParseBool w)] ∧
      (Shell.ls sh env [path, w]).calls = [ZkCall.get_children path (specParseBool w)] ∧
      (Shell.node_exists sh env [path, w]).calls =
        [ZkCall.node_exists path (specParseBool w)] ∧
      (Shell.create sh env [path, data, w, w2]).calls =
        [ZkCall.create path (strBytes data) sh.default_acl
          (specResolveMode (specParseBool w) (specParseBool w2))] := by
  have hca : check_args [path, w] 1 2 = false := rfl
  refine ⟨?_, ?_, ?_, (create_calls_spec sh env zk path data w w2 hzk).1⟩
  · simp [Shell.get, hzk, rustToLowercase_eq_true_iff, hca]
    split <;> (try split) <;> rfl
  · simp [Shell.ls, hzk, rustToLowercase_eq_true_iff, hca]
    split <;> rfl
  · simp [Shell.node_exists, hzk, rustToLowercase_eq_true_iff, hca]
    split <;> rfl

/-- C8 (witness): `TRUE` sets the watch flag of `get`, while `yes`
does not, with no error in either case. -/
theorem bool_flag_case_insensitive_witness :
    (Shell.get shellConn okEnv ["/a", "TRUE"]).calls = [ZkCall.get_data "/a" true] ∧
      (Shell.get shellConn okEnv ["/a", "yes"]).calls = [ZkCall.get_data "/a" false] := by
  have h1 := (bool_flag_case_insensitive shellConn okEnv ⟨1⟩ "/a" "x" "TRUE" "" rfl).1
  have h2 := (bool_flag_case_insensitive shellConn okEnv ⟨1⟩ "/a" "x" "yes" "" rfl).1
  exact ⟨by simpa using h1, by simpa using h2⟩

/-- C9: the error mapper renders a "node does not exist" code as
`Path <path> does not exist.`, a "node has children / not empty" code
as `Path <path> is not empty.`, and every other code as
`Unknown error: <raw code>` (the code's Debug rendering); a failing
remote operation — `rm` shown here — prints exactly that one line. -/
theorem report_error_mapping (err : ZkError) (path : String) (sh : Shell)
    (env : ZkEnv) (zk : ZooKeeper) (e : ZkError)
    (hzk : sh.zk = some zk) (hdel : env.delete path (-1) = Except.error e) :
    (err = ZkError.NoNode → report_error err path = "Path " ++ path ++ " does not exist.") ∧
      (err = ZkError.NotEmpty → report_error err path = "Path " ++ path ++ " is not empty.") ∧
      (err ≠ ZkError.NoNode → err ≠ ZkError.NotEmpty →
        report_error err path = "Unknown error: " ++ zkErrorDebug err) ∧
      (Shell.rm sh env [path]).output = [report_error e path] := by
  have hca : check_args [path] 1 2 = false := rfl
  refine ⟨?_, ?_, ?_, ?_⟩
  · intro h; subst h; rfl
  · intro h; subst h; rfl
  · intro h1 h2; cases err <;> simp_all [report_error]
  · simp [Shell.rm, hzk, hca, hdel]

/-- C9 (witness): against a collaborator reporting "does not exist",
`rm /missing` prints exactly `Path /missing does not exist.`. -/
theorem report_error_mapping_witness :
    report_error ZkError.NoNode "/missing" = "Path /missing does not exist." ∧
      (Shell.rm shellConn noNodeEnv ["/missing"]).output =
        [report_error ZkError.NoNode "/missing"] := by
  have h := report_error_mapping ZkError.NoNode "/missing" shellConn noNodeEnv ⟨1⟩
    ZkError.NoNode rfl rfl
  exact ⟨h.1 rfl, h.2.2.2⟩

/-- C10: no command other than `connect` and `disconnect` ever
changes the shell state — for every command name that is neither of
those (all the node operations, help, man and unknown names alike)
and every argument list, collaborator behaviour and starting state,
the state after dispatch equals the state before, so hosts, the
stored session, the session timeout and the default ACL are all
preserved across success, arity failure, connection-check failure and
remote errors. -/
theorem node_ops_frame (sh : Shell) (env : ZkEnv) (cmd : String) (args : List String)
    (h1 : cmd ≠ "connect") (h2 : cmd ≠ "disconnect") :
    (dispatchCmd sh env cmd args).state = sh := by
  unfold dispatchCmd Shell.get Shell.set Shell.ls Shell.create Shell.rm
    Shell.node_exists Shell.help check_args_fail fetch_zk_fail
  repeat' split
  all_goals try rfl
  all_goals try (dsimp only; repeat' split)
  all_goals first
    | rfl
    | exact absurd rfl h1
    | exact absurd rfl h2

/-- C10 (witness): a `get` that succeeds against the connected shell
leaves the state exactly as it was. -/
theorem node_ops_frame_witness :
    (dispatchCmd shellConn okEnv "get" ["/a"]).state = shellConn :=
  node_ops_frame shellConn okEnv "get" ["/a"] (by decide) (by decide)

end ZkShell
